import Mathlib

/-!
# Nearby drivers: distance computation, feed filtering and view selection

A shallow embedding of `src/nearby-drivers.js` (the `NearbyDrivers` React component).

Modelling conventions.

* JavaScript numbers are modelled as real numbers, `Math.sin`, `Math.cos`, `Math.sqrt`,
  `Math.atan2` and `Math.PI` as the corresponding real functions and constant.  Definitions
  that compute with them cannot be evaluated by the compiler, hence the `noncomputable section`.
  The arithmetic is exact: the rounding of double precision is not modelled.  In double
  precision the term `a` of `calculateDistance` can leave `[0, 1]` by one unit in the last
  place for nearly antipodal points (for instance `(8, 0)` and `(-8, 180)`), `Math.sqrt` then
  yields `NaN` and so does the function; the facts below about `haversineA`, `rawDistance`
  and `calculateDistance` are facts about the formula, not about that rounding.
* `Number.prototype.toFixed(1)` followed by unary `+` is rounding to the nearest tenth, a tie
  going away from zero.
* A feed snapshot (`snapshot.val()`) is `none` for `null`, and otherwise the list of
  `Object.entries` pairs of the collection.
* React state is an explicit record; every callback is a function from state to state.
-/

noncomputable section

namespace NearbyDrivers

/-! ## Number helpers -/

/-- The library function `Math.atan2(y, x)` on real arguments. -/
def atan2 (y x : ℝ) : ℝ :=
  if 0 < x then Real.arctan (y / x)
  else if x < 0 then
    (if 0 ≤ y then Real.arctan (y / x) + Real.pi else Real.arctan (y / x) - Real.pi)
  else if 0 < y then Real.pi / 2
  else if y < 0 then -(Real.pi / 2)
  else 0

/-- The expression `+x.toFixed(1)`: the multiple of one tenth nearest to `x`; of two equally
near ones the one of larger magnitude. -/
def toFixed1 (x : ℝ) : ℝ :=
  if x < 0 then -((⌊10 * (-x) + 1 / 2⌋ : ℤ) : ℝ) / 10
  else ((⌊10 * x + 1 / 2⌋ : ℤ) : ℝ) / 10

/-! ## `deg2rad` and `calculateDistance` (source lines 68-80) -/

/-- The helper `const deg2rad = (deg) => deg * (Math.PI/180)`. -/
def deg2rad (deg : ℝ) : ℝ := deg * (Real.pi / 180)

/-- The constant `const R = 6371`, the radius of the Earth in km. -/
def R : ℝ := 6371

/-- The local constant `a` of `calculateDistance`. -/
def haversineA (lat1 lon1 lat2 lon2 : ℝ) : ℝ :=
  let dLat := deg2rad (lat2 - lat1)
  let dLon := deg2rad (lon2 - lon1)
  Real.sin (dLat / 2) * Real.sin (dLat / 2) +
    Real.cos (deg2rad lat1) * Real.cos (deg2rad lat2) *
      Real.sin (dLon / 2) * Real.sin (dLon / 2)

/-- The local constant `c` of `calculateDistance`. -/
def haversineC (lat1 lon1 lat2 lon2 : ℝ) : ℝ :=
  let a := haversineA lat1 lon1 lat2 lon2
  2 * atan2 (Real.sqrt a) (Real.sqrt (1 - a))

/-- The unrounded product `R * c` of `calculateDistance`. -/
def rawDistance (lat1 lon1 lat2 lon2 : ℝ) : ℝ :=
  R * haversineC lat1 lon1 lat2 lon2

/-- The function `calculateDistance(lat1, lon1, lat2, lon2)`, which returns
`+(R * c).toFixed(1)`. -/
def calculateDistance (lat1 lon1 lat2 lon2 : ℝ) : ℝ :=
  toFixed1 (rawDistance lat1 lon1 lat2 lon2)

/-! ## Records (source lines 47-57) -/

/-- The `coordinates` object of a driver record; either component may be missing. -/
structure Coordinates where
  lat : Option ℝ
  lng : Option ℝ

/-- A raw driver record as stored in the `drivers` collection.  `id` and `distance` are the
record's own fields of that name, when it has them; the remaining fields are the ones the
view reads. -/
structure Driver where
  id : Option String
  distance : Option ℝ
  coordinates : Option Coordinates
  name : Option String
  imageUrl : Option String
  rating : Option ℝ
  trips : Option ℝ
  carType : Option String
  carModel : Option String
  location : Option String

/-- The value of `userLocation`, an object with fields `lat` and `lng`. -/
structure Location where
  lat : ℝ
  lng : ℝ

/-- An element of `nearbyDriversList`: the object `{ id, ...driver, distance: ... }`.
`fields` holds the spread fields of the raw record other than `id` and `distance`. -/
structure NearbyDriver where
  id : String
  distance : ℝ
  fields : Driver

/-- The expression `v || 0` on an optional number: a missing value and `0` both give `0`. -/
def orZero (v : Option ℝ) : ℝ :=
  match v with
  | some x => if x = 0 then 0 else x
  | none => 0

/-- The expression `driver.coordinates?.lat`. -/
def coordLat (driver : Driver) : Option ℝ := driver.coordinates.bind Coordinates.lat

/-- The expression `driver.coordinates?.lng`. -/
def coordLng (driver : Driver) : Option ℝ := driver.coordinates.bind Coordinates.lng

/-- The arrow function of the `map` step:
`([id, driver]) => ({ id, ...driver, distance: calculateDistance(...) })`.
The spread comes after `id`, so an own `id` field of the record replaces the key; `distance`
comes after the spread, so the computed value replaces an own `distance` field. -/
def toEntry (userLocation : Location) (entry : String × Driver) : NearbyDriver :=
  { id := match entry.2.id with
          | some own => own
          | none => entry.1
    distance := calculateDistance userLocation.lat userLocation.lng
      (orZero (coordLat entry.2)) (orZero (coordLng entry.2))
    fields := entry.2 }

/-- The `filter` step: `driver => driver.distance <= 10`. -/
def withinRadius (driver : NearbyDriver) : Bool := decide (driver.distance ≤ 10)

/-- The comparator `(a, b) => a.distance - b.distance` orders by ascending distance. -/
def byDistance (a b : NearbyDriver) : Prop := a.distance ≤ b.distance

instance : DecidableRel byDistance :=
  fun a b => inferInstanceAs (Decidable (a.distance ≤ b.distance))

instance : IsTotal NearbyDriver byDistance := ⟨fun a b => le_total a.distance b.distance⟩

instance : IsTrans NearbyDriver byDistance :=
  ⟨fun _ _ _ hab hbc => @le_trans ℝ _ _ _ _ hab hbc⟩

/-- The list `nearbyDriversList`, built as
`Object.entries(driversData).map(...).filter(...).sort(...)`.
`Array.prototype.sort` is stable; so is insertion sort. -/
def nearbyDriversList (userLocation : Location) (driversData : List (String × Driver)) :
    List NearbyDriver :=
  List.insertionSort byDistance
    (List.filter withinRadius (List.map (toEntry userLocation) driversData))

/-! ## Component state, callbacks and view selection (source lines 5-66 and 82-108) -/

/-- The four `useState` cells of the component. -/
structure State where
  drivers : List NearbyDriver
  userLocation : Option Location
  loading : Bool
  error : Option String

/-- The initial values: `useState([])`, `useState(null)`, `useState(true)`, `useState(null)`. -/
def initialState : State :=
  { drivers := [], userLocation := none, loading := true, error := none }

/-- How the one-shot `getCurrentPosition` request ends: its success callback is called with
a position, or its error callback is called. -/
inductive PositionResult where
  | success (latitude longitude : ℝ)
  | failure

/-- The function `getUserLocation` together with the callbacks it registers.  The argument
is `none` when `navigator.geolocation` is missing, and otherwise the outcome of the request. -/
def getUserLocation (geolocation : Option PositionResult) (s : State) : State :=
  match geolocation with
  | none => { s with error := some "المتصفح لا يدعم تحديد الموقع" }
  | some (PositionResult.success latitude longitude) =>
      { s with userLocation := some { lat := latitude, lng := longitude } }
  | some PositionResult.failure => { s with error := some "فشل في تحديد موقعك" }

/-- The `'value'` handler registered on `driversRef`, for the `userLocation` it closes over.
`driversData` is `snapshot.val()`; `none` stands for `null`. -/
def onValue (userLocation : Location) (driversData : Option (List (String × Driver)))
    (s : State) : State :=
  match driversData with
  | none => { s with loading := false }
  | some data => { s with drivers := nearbyDriversList userLocation data, loading := false }

/-- A push of the feed to the component: the second effect subscribes only when
`userLocation` is set (`if (!userLocation) return`), so without it no handler runs. -/
def feedPush (driversData : Option (List (String × Driver))) (s : State) : State :=
  match s.userLocation with
  | none => s
  | some userLocation => onValue userLocation driversData s

/-- The four things the component can return from its render. -/
inductive View where
  | loading
  | error (message : String)
  | noDrivers
  | driverList (drivers : List NearbyDriver)

/-- Truthiness of the `error` cell: `null` and the empty string are falsy. -/
def errorSet (error : Option String) : Bool :=
  match error with
  | some message => message != ""
  | none => false

/-- The render body: `if (loading) ...; if (error) ...; drivers.length === 0 ? ... : ...`. -/
def render (s : State) : View :=
  if s.loading then View.loading
  else if errorSet s.error then View.error (s.error.getD "")
  else if s.drivers.length = 0 then View.noDrivers
  else View.driverList s.drivers

/-! ## The specification's great-circle distance -/

/-- The great-circle distance on a sphere of radius 6371 as the specification words it:
`6371 * arccos(sin p1 * sin p2 + cos p1 * cos p2 * cos (l2 - l1))`, the angles being the
latitudes and longitudes converted from degrees to radians. -/
def greatCircleDistance (lat1 lon1 lat2 lon2 : ℝ) : ℝ :=
  let p1 := lat1 * Real.pi / 180
  let p2 := lat2 * Real.pi / 180
  let l1 := lon1 * Real.pi / 180
  let l2 := lon2 * Real.pi / 180
  6371 * Real.arccos (Real.sin p1 * Real.sin p2 + Real.cos p1 * Real.cos p2 * Real.cos (l2 - l1))

/-- Rounding to one decimal digit as the specification words it: the nearest multiple of
one tenth. -/
def roundOneDecimal (x : ℝ) : ℝ := ((round (10 * x) : ℤ) : ℝ) / 10

/-! ## Example data -/

/-- A record that has no `coordinates` and no field named `id` or `distance`. -/
def unlocatedDriver : Driver :=
  { id := none, distance := none, coordinates := none, name := some "Sami", imageUrl := none,
    rating := none, trips := none, carType := none, carModel := none, location := none }

/-- A record that carries fields named `id` and `distance` of its own. -/
def driverWithOwnFields : Driver :=
  { unlocatedDriver with id := some "own-id", distance := some 99 }

/-- The reference point of scenario A, `(24.7136, 46.6753)`. -/
def scenarioAReference : Location := { lat := 24.7136, lng := 46.6753 }

/-- A record located at `(24.7500, 46.7000)`, the entity of scenario A. -/
def scenarioADriver : Driver :=
  { unlocatedDriver with coordinates := some { lat := some 24.75, lng := some 46.7 } }

/-- The reference point `(0, 0)`. -/
def origin : Location := { lat := 0, lng := 0 }

/-- The state after the location request succeeded with `(0, 0)` and the feed pushed a
collection holding one record without coordinates. -/
def stateAfterOnePush : State :=
  feedPush (some [("k1", unlocatedDriver)])
    (getUserLocation (some (PositionResult.success 0 0)) initialState)

/-! ## Facts about the haversine term -/

theorem haversineA_symm (lat1 lon1 lat2 lon2 : ℝ) :
    haversineA lat1 lon1 lat2 lon2 = haversineA lat2 lon2 lat1 lon1 := by
  unfold haversineA deg2rad
  have h1 : (lat1 - lat2) * (Real.pi / 180) / 2 = -((lat2 - lat1) * (Real.pi / 180) / 2) := by
    ring
  have h2 : (lon1 - lon2) * (Real.pi / 180) / 2 = -((lon2 - lon1) * (Real.pi / 180) / 2) := by
    ring
  simp only [h1, h2, Real.sin_neg]
  ring

/-- The haversine term is a weighted mean of two squares, the weight being
`sin² (dLon / 2)`. -/
theorem haversineA_eq_mean (lat1 lon1 lat2 lon2 : ℝ) :
    haversineA lat1 lon1 lat2 lon2 =
      (1 - Real.sin (deg2rad (lon2 - lon1) / 2) ^ 2) *
          Real.sin (deg2rad (lat2 - lat1) / 2) ^ 2 +
        Real.sin (deg2rad (lon2 - lon1) / 2) ^ 2 *
          Real.cos ((deg2rad lat1 + deg2rad lat2) / 2) ^ 2 := by
  have key : Real.cos (deg2rad lat1) * Real.cos (deg2rad lat2) =
      Real.cos ((deg2rad lat1 + deg2rad lat2) / 2) ^ 2 -
        Real.sin (deg2rad (lat2 - lat1) / 2) ^ 2 := by
    have e1 : deg2rad (lat2 - lat1) / 2 = deg2rad lat2 / 2 - deg2rad lat1 / 2 := by
      unfold deg2rad; ring
    have e2 : (deg2rad lat1 + deg2rad lat2) / 2 = deg2rad lat1 / 2 + deg2rad lat2 / 2 := by
      ring
    have c1 : Real.cos (deg2rad lat1) = 2 * Real.cos (deg2rad lat1 / 2) ^ 2 - 1 := by
      rw [← Real.cos_two_mul]; congr 1; ring
    have c2 : Real.cos (deg2rad lat2) = 2 * Real.cos (deg2rad lat2 / 2) ^ 2 - 1 := by
      rw [← Real.cos_two_mul]; congr 1; ring
    rw [e1, e2, Real.sin_sub, Real.cos_add, c1, c2]
    have s1 := Real.sin_sq_add_cos_sq (deg2rad lat1 / 2)
    have s2 := Real.sin_sq_add_cos_sq (deg2rad lat2 / 2)
    generalize Real.sin (deg2rad lat1 / 2) = x1 at *
    generalize Real.cos (deg2rad lat1 / 2) = y1 at *
    generalize Real.sin (deg2rad lat2 / 2) = x2 at *
    generalize Real.cos (deg2rad lat2 / 2) = y2 at *
    have hx1 : x1 ^ 2 = 1 - y1 ^ 2 := by linarith
    have hx2 : x2 ^ 2 = 1 - y2 ^ 2 := by linarith
    linear_combination (y2 ^ 2 - x2 ^ 2) * hx1 + (2 * y1 ^ 2 - 1) * hx2
  unfold haversineA
  simp only []
  rw [key]
  ring

theorem haversineA_nonneg (lat1 lon1 lat2 lon2 : ℝ) : 0 ≤ haversineA lat1 lon1 lat2 lon2 := by
  rw [haversineA_eq_mean]
  have hs := Real.sin_sq_le_one (deg2rad (lon2 - lon1) / 2)
  have h1 := sq_nonneg (Real.sin (deg2rad (lon2 - lon1) / 2))
  have h2 := sq_nonneg (Real.sin (deg2rad (lat2 - lat1) / 2))
  have h3 := sq_nonneg (Real.cos ((deg2rad lat1 + deg2rad lat2) / 2))
  have h4 : 0 ≤ 1 - Real.sin (deg2rad (lon2 - lon1) / 2) ^ 2 := by linarith
  positivity

theorem haversineA_le_one (lat1 lon1 lat2 lon2 : ℝ) : haversineA lat1 lon1 lat2 lon2 ≤ 1 := by
  rw [haversineA_eq_mean]
  have hs := Real.sin_sq_le_one (deg2rad (lon2 - lon1) / 2)
  have h1 := sq_nonneg (Real.sin (deg2rad (lon2 - lon1) / 2))
  have hu := Real.sin_sq_le_one (deg2rad (lat2 - lat1) / 2)
  have hv := Real.cos_sq_le_one ((deg2rad lat1 + deg2rad lat2) / 2)
  have h4 : 0 ≤ 1 - Real.sin (deg2rad (lon2 - lon1) / 2) ^ 2 := by linarith
  nlinarith [mul_le_mul_of_nonneg_left hu h4, mul_le_mul_of_nonneg_left hv h1]

/-- On the square roots of `a` and `1 - a` with `0 ≤ a ≤ 1`, `atan2` is the arc sine of
the first. -/
theorem atan2_sqrt_eq_arcsin (a : ℝ) (h0 : 0 ≤ a) (h1 : a ≤ 1) :
    atan2 (Real.sqrt a) (Real.sqrt (1 - a)) = Real.arcsin (Real.sqrt a) := by
  rcases h1.lt_or_eq with h | h
  · have hpos : 0 < Real.sqrt (1 - a) := Real.sqrt_pos.mpr (by linarith)
    have hlt : Real.sqrt a < 1 := by
      rw [Real.sqrt_lt' one_pos]
      simpa using h
    have hx : Real.sqrt a ∈ Set.Ioo (-1 : ℝ) 1 :=
      ⟨by linarith [Real.sqrt_nonneg a], hlt⟩
    unfold atan2
    rw [if_pos hpos, Real.arcsin_eq_arctan hx, Real.sq_sqrt h0]
  · subst h
    simp [atan2]

theorem haversineC_eq_arcsin (lat1 lon1 lat2 lon2 : ℝ) :
    haversineC lat1 lon1 lat2 lon2 =
      2 * Real.arcsin (Real.sqrt (haversineA lat1 lon1 lat2 lon2)) := by
  unfold haversineC
  simp only []
  rw [atan2_sqrt_eq_arcsin _ (haversineA_nonneg _ _ _ _) (haversineA_le_one _ _ _ _)]

theorem haversineC_nonneg (lat1 lon1 lat2 lon2 : ℝ) : 0 ≤ haversineC lat1 lon1 lat2 lon2 := by
  rw [haversineC_eq_arcsin]
  have := Real.arcsin_nonneg.mpr (Real.sqrt_nonneg (haversineA lat1 lon1 lat2 lon2))
  linarith

theorem haversineC_le_pi (lat1 lon1 lat2 lon2 : ℝ) :
    haversineC lat1 lon1 lat2 lon2 ≤ Real.pi := by
  rw [haversineC_eq_arcsin]
  have := Real.arcsin_le_pi_div_two (Real.sqrt (haversineA lat1 lon1 lat2 lon2))
  linarith

theorem cos_haversineC (lat1 lon1 lat2 lon2 : ℝ) :
    Real.cos (haversineC lat1 lon1 lat2 lon2) = 1 - 2 * haversineA lat1 lon1 lat2 lon2 := by
  rw [haversineC_eq_arcsin, Real.cos_two_mul]
  have h0 := haversineA_nonneg lat1 lon1 lat2 lon2
  have h1 := haversineA_le_one lat1 lon1 lat2 lon2
  have hs1 : Real.sqrt (haversineA lat1 lon1 lat2 lon2) ≤ 1 := by
    rw [Real.sqrt_le_left (by norm_num : (0 : ℝ) ≤ 1)]
    simpa using h1
  have hsin := Real.sin_arcsin (by linarith [Real.sqrt_nonneg (haversineA lat1 lon1 lat2 lon2)])
    hs1
  have hsq := Real.sin_sq_add_cos_sq (Real.arcsin (Real.sqrt (haversineA lat1 lon1 lat2 lon2)))
  rw [hsin, Real.sq_sqrt h0] at hsq
  linarith

theorem rawDistance_nonneg (lat1 lon1 lat2 lon2 : ℝ) : 0 ≤ rawDistance lat1 lon1 lat2 lon2 := by
  unfold rawDistance R
  have := haversineC_nonneg lat1 lon1 lat2 lon2
  positivity

theorem rawDistance_le (lat1 lon1 lat2 lon2 : ℝ) :
    rawDistance lat1 lon1 lat2 lon2 ≤ 6371 * Real.pi := by
  unfold rawDistance R
  have := haversineC_le_pi lat1 lon1 lat2 lon2
  linarith

/-! ## Facts about rounding -/

theorem toFixed1_of_nonneg {x : ℝ} (hx : 0 ≤ x) :
    toFixed1 x = ((⌊10 * x + 1 / 2⌋ : ℤ) : ℝ) / 10 := by
  unfold toFixed1
  rw [if_neg (not_lt.mpr hx)]

theorem toFixed1_nonneg {x : ℝ} (hx : 0 ≤ x) : 0 ≤ toFixed1 x := by
  rw [toFixed1_of_nonneg hx]
  have h : (0 : ℤ) ≤ ⌊10 * x + 1 / 2⌋ := Int.floor_nonneg.mpr (by linarith)
  have h2 : (0 : ℝ) ≤ ((⌊10 * x + 1 / 2⌋ : ℤ) : ℝ) := by exact_mod_cast h
  positivity

theorem toFixed1_mono {x y : ℝ} (hx : 0 ≤ x) (hxy : x ≤ y) : toFixed1 x ≤ toFixed1 y := by
  rw [toFixed1_of_nonneg hx, toFixed1_of_nonneg (le_trans hx hxy)]
  have h : ⌊10 * x + 1 / 2⌋ ≤ ⌊10 * y + 1 / 2⌋ := Int.floor_le_floor (by linarith)
  have h2 : ((⌊10 * x + 1 / 2⌋ : ℤ) : ℝ) ≤ ((⌊10 * y + 1 / 2⌋ : ℤ) : ℝ) := by exact_mod_cast h
  linarith

theorem toFixed1_eq_roundOneDecimal {x : ℝ} (hx : 0 ≤ x) : toFixed1 x = roundOneDecimal x := by
  rw [toFixed1_of_nonneg hx]
  unfold roundOneDecimal
  rw [round_eq]

/-- A value in `[n/10 - 1/20, n/10 + 1/20)` is rounded to `n/10`. -/
theorem toFixed1_eq_of_mem {x : ℝ} (n : ℤ) (hx : 0 ≤ x) (hlo : (n : ℝ) / 10 - 1 / 20 ≤ x)
    (hhi : x < (n : ℝ) / 10 + 1 / 20) : toFixed1 x = (n : ℝ) / 10 := by
  rw [toFixed1_of_nonneg hx]
  have : ⌊10 * x + 1 / 2⌋ = n := by
    rw [Int.floor_eq_iff]
    constructor <;> linarith
  rw [this]

theorem toFixed1_earth_half_circumference : toFixed1 (6371 * Real.pi) = 20015.1 := by
  have h1 := Real.pi_gt_d6
  have h2 := Real.pi_lt_d6
  have h := toFixed1_eq_of_mem (x := 6371 * Real.pi) 200151 (by positivity)
    (by norm_num; linarith) (by norm_num; linarith)
  rw [h]
  norm_num

/-! ## The distance function: great-circle distance, symmetry, bounds -/

theorem one_sub_two_sin_half_sq (x : ℝ) :
    1 - 2 * (Real.sin (x / 2) * Real.sin (x / 2)) = Real.cos x := by
  have h : Real.cos x = 2 * Real.cos (x / 2) ^ 2 - 1 := by
    rw [← Real.cos_two_mul]; congr 1; ring
  have hs := Real.sin_sq_add_cos_sq (x / 2)
  rw [h]
  linarith

theorem one_sub_two_haversineA (lat1 lon1 lat2 lon2 : ℝ) :
    1 - 2 * haversineA lat1 lon1 lat2 lon2 =
      Real.sin (deg2rad lat1) * Real.sin (deg2rad lat2) +
        Real.cos (deg2rad lat1) * Real.cos (deg2rad lat2) *
          Real.cos (deg2rad lon2 - deg2rad lon1) := by
  have e1 : deg2rad (lat2 - lat1) = deg2rad lat2 - deg2rad lat1 := by unfold deg2rad; ring
  have e2 : deg2rad (lon2 - lon1) = deg2rad lon2 - deg2rad lon1 := by unfold deg2rad; ring
  have hφ := one_sub_two_sin_half_sq (deg2rad lat2 - deg2rad lat1)
  have hl := one_sub_two_sin_half_sq (deg2rad lon2 - deg2rad lon1)
  rw [Real.cos_sub] at hφ
  unfold haversineA
  simp only []
  rw [e1, e2]
  linear_combination hφ + Real.cos (deg2rad lat1) * Real.cos (deg2rad lat2) * hl

theorem rawDistance_eq_greatCircleDistance (lat1 lon1 lat2 lon2 : ℝ) :
    rawDistance lat1 lon1 lat2 lon2 = greatCircleDistance lat1 lon1 lat2 lon2 := by
  have hc := Real.arccos_cos (haversineC_nonneg lat1 lon1 lat2 lon2)
    (haversineC_le_pi lat1 lon1 lat2 lon2)
  rw [cos_haversineC, one_sub_two_haversineA] at hc
  unfold rawDistance R greatCircleDistance
  simp only []
  rw [← hc]
  unfold deg2rad
  have r : ∀ d : ℝ, d * Real.pi / 180 = d * (Real.pi / 180) := fun d => by ring
  simp only [r]

/-- Claim C6: over the real numbers the unrounded `R * c` of `calculateDistance` is the
great-circle distance `6371 * arccos (sin p1 sin p2 + cos p1 cos p2 cos (l2 - l1))` of the two
points (angles converted to radians), and the returned value is that quantity rounded to one
decimal digit. -/
theorem calculateDistance_is_great_circle (lat1 lon1 lat2 lon2 : ℝ) :
    rawDistance lat1 lon1 lat2 lon2 = greatCircleDistance lat1 lon1 lat2 lon2 ∧
      calculateDistance lat1 lon1 lat2 lon2 =
        roundOneDecimal (greatCircleDistance lat1 lon1 lat2 lon2) := by
  refine ⟨rawDistance_eq_greatCircleDistance lat1 lon1 lat2 lon2, ?_⟩
  unfold calculateDistance
  rw [toFixed1_eq_roundOneDecimal (rawDistance_nonneg lat1 lon1 lat2 lon2),
    rawDistance_eq_greatCircleDistance]

/-- Claim C7: `calculateDistance` is symmetric in its two points. -/
theorem calculateDistance_symm (lat1 lon1 lat2 lon2 : ℝ) :
    calculateDistance lat1 lon1 lat2 lon2 = calculateDistance lat2 lon2 lat1 lon1 := by
  unfold calculateDistance rawDistance haversineC
  simp only []
  rw [haversineA_symm]

/-- A point is at distance `0.0` from itself. -/
theorem calculateDistance_self (lat lon : ℝ) : calculateDistance lat lon lat lon = 0 := by
  have ha : haversineA lat lon lat lon = 0 := by
    unfold haversineA deg2rad
    simp
  have hr : rawDistance lat lon lat lon = 0 := by
    unfold rawDistance
    rw [haversineC_eq_arcsin, ha]
    simp
  unfold calculateDistance
  rw [hr]
  have h := toFixed1_eq_of_mem (x := 0) 0 le_rfl (by norm_num) (by norm_num)
  simpa using h

/-- Two antipodal points on the equator: the unrounded value is `6371 * pi` and the
returned value is its rounding `20015.1`, the largest value the function returns. -/
theorem calculateDistance_antipodal :
    rawDistance 0 0 0 180 = 6371 * Real.pi ∧ calculateDistance 0 0 0 180 = 20015.1 := by
  have e : deg2rad (180 - 0) / 2 = Real.pi / 2 := by unfold deg2rad; ring
  have ha : haversineA 0 0 0 180 = 1 := by
    unfold haversineA
    simp only []
    rw [e]
    simp [deg2rad]
  have hr : rawDistance 0 0 0 180 = 6371 * Real.pi := by
    unfold rawDistance R
    rw [haversineC_eq_arcsin, ha]
    simp
    ring
  refine ⟨hr, ?_⟩
  unfold calculateDistance
  rw [hr]
  exact toFixed1_earth_half_circumference

/-- Claim C8 as stated fails: for the antipodal points `(0, 0)` and `(0, 180)` the value
returned by `calculateDistance` is `20015.1`, which is above `6371 * pi`, so
`0 ≤ result ≤ 6371 * pi` does not hold of the returned value. -/
theorem calculateDistance_exceeds_half_circumference :
    calculateDistance 0 0 0 180 = 20015.1 ∧
      ¬ (0 ≤ calculateDistance 0 0 0 180 ∧ calculateDistance 0 0 0 180 ≤ 6371 * Real.pi) := by
  have h := calculateDistance_antipodal.2
  refine ⟨h, ?_⟩
  rintro ⟨_, hle⟩
  rw [h] at hle
  have hp := Real.pi_lt_d6
  norm_num at hle hp
  linarith

/-- Claim C8 amended: in exact real arithmetic, for all inputs (latitudes and longitudes
outside their usual ranges included) the haversine term `a` lies in `[0, 1]`, so `sqrt a` and
`sqrt (1 - a)` take non-negative arguments; the unrounded `R * c` lies in `[0, 6371 * pi]`;
and the returned value, `R * c` rounded to one decimal, lies in `[0, 20015.1]`, where
`20015.1` is `6371 * pi` rounded to one decimal. -/
theorem calculateDistance_real_bounds (lat1 lon1 lat2 lon2 : ℝ) :
    (0 ≤ haversineA lat1 lon1 lat2 lon2 ∧ haversineA lat1 lon1 lat2 lon2 ≤ 1) ∧
      0 ≤ 1 - haversineA lat1 lon1 lat2 lon2 ∧
      (0 ≤ rawDistance lat1 lon1 lat2 lon2 ∧ rawDistance lat1 lon1 lat2 lon2 ≤ 6371 * Real.pi) ∧
      calculateDistance lat1 lon1 lat2 lon2 = toFixed1 (rawDistance lat1 lon1 lat2 lon2) ∧
      (0 ≤ calculateDistance lat1 lon1 lat2 lon2 ∧
        calculateDistance lat1 lon1 lat2 lon2 ≤ 20015.1) ∧
      toFixed1 (6371 * Real.pi) = 20015.1 := by
  have h0 := haversineA_nonneg lat1 lon1 lat2 lon2
  have h1 := haversineA_le_one lat1 lon1 lat2 lon2
  have r0 := rawDistance_nonneg lat1 lon1 lat2 lon2
  have r1 := rawDistance_le lat1 lon1 lat2 lon2
  refine ⟨⟨h0, h1⟩, by linarith, ⟨r0, r1⟩, rfl, ⟨?_, ?_⟩, toFixed1_earth_half_circumference⟩
  · exact toFixed1_nonneg r0
  · rw [← toFixed1_earth_half_circumference]
    exact toFixed1_mono r0 r1

/-! ## The map, filter and sort steps -/

theorem orZero_eq_getD (v : Option ℝ) : orZero v = v.getD 0 := by
  cases v with
  | none => rfl
  | some x =>
    by_cases h : x = 0
    · simp [orZero, h]
    · simp [orZero, h]

theorem nearbyDriversList_perm (userLocation : Location) (driversData : List (String × Driver)) :
    (nearbyDriversList userLocation driversData).Perm
      (List.filter withinRadius (List.map (toEntry userLocation) driversData)) :=
  List.perm_insertionSort byDistance _

theorem mem_nearbyDriversList (userLocation : Location) (driversData : List (String × Driver))
    (e : NearbyDriver) :
    e ∈ nearbyDriversList userLocation driversData ↔
      (∃ p ∈ driversData, toEntry userLocation p = e) ∧ e.distance ≤ 10 := by
  rw [(nearbyDriversList_perm userLocation driversData).mem_iff, List.mem_filter, List.mem_map]
  simp [withinRadius]

/-- Claim C1: the list built by the feed handler holds exactly the entries of the collection
whose computed distance is at most 10.  No entry of the result is farther than 10; every
entry of the collection within 10 is in the result; and the result is a rearrangement of the
within-10 entries taken one by one in collection order, so each of them occurs in it exactly
as often as it was produced, and the result has as many elements as the collection has
entries within 10. -/
theorem nearbyDriversList_exactly_within_radius (userLocation : Location)
    (driversData : List (String × Driver)) :
    (∀ e, e ∈ nearbyDriversList userLocation driversData → e.distance ≤ 10) ∧
      (∀ p, p ∈ driversData → (toEntry userLocation p).distance ≤ 10 →
        toEntry userLocation p ∈ nearbyDriversList userLocation driversData) ∧
      (∀ p, p ∈ driversData → 10 < (toEntry userLocation p).distance →
        toEntry userLocation p ∉ nearbyDriversList userLocation driversData) ∧
      (∀ e, e ∈ nearbyDriversList userLocation driversData →
        ∃ p, p ∈ driversData ∧ toEntry userLocation p = e) ∧
      (nearbyDriversList userLocation driversData).Perm
        (List.filter (fun e => decide (e.distance ≤ 10))
          (List.map (toEntry userLocation) driversData)) ∧
      (nearbyDriversList userLocation driversData).length =
        List.countP (fun p => decide ((toEntry userLocation p).distance ≤ 10)) driversData := by
  refine ⟨?_, ?_, ?_, ?_, ?_, ?_⟩
  · intro e he
    exact ((mem_nearbyDriversList userLocation driversData e).mp he).2
  · intro p hp hd
    exact (mem_nearbyDriversList userLocation driversData _).mpr ⟨⟨p, hp, rfl⟩, hd⟩
  · intro p _ hd he
    exact absurd ((mem_nearbyDriversList userLocation driversData _).mp he).2 (not_le.mpr hd)
  · intro e he
    obtain ⟨p, hp, hpe⟩ := ((mem_nearbyDriversList userLocation driversData e).mp he).1
    exact ⟨p, hp, hpe⟩
  · exact nearbyDriversList_perm userLocation driversData
  · rw [(nearbyDriversList_perm userLocation driversData).length_eq,
      ← List.countP_eq_length_filter, List.countP_map]
    rfl

/-- Claim C2: the result list is sorted ascending by distance: every two adjacent entries
`x`, `y` of it satisfy `x.distance ≤ y.distance`. -/
theorem nearbyDriversList_sorted (userLocation : Location)
    (driversData : List (String × Driver)) :
    List.Chain' (fun x y => x.distance ≤ y.distance)
      (nearbyDriversList userLocation driversData) :=
  List.Pairwise.chain' (List.sorted_insertionSort byDistance _)

/-- Claim C9: a record whose `coordinates`, `lat` or `lng` is absent gets the distance from
the reference point to the point in which every absent component is replaced by `0`; without
`coordinates` that point is `(0, 0)`; and with reference `(0, 0)` a record without
`coordinates` gets distance `0.0` and is in the result of every collection that holds it. -/
theorem toEntry_absent_coordinates (userLocation : Location) (key : String) (driver : Driver) :
    (toEntry userLocation (key, driver)).distance =
        calculateDistance userLocation.lat userLocation.lng
          ((driver.coordinates.bind Coordinates.lat).getD 0)
          ((driver.coordinates.bind Coordinates.lng).getD 0) ∧
      (driver.coordinates = none →
        (toEntry userLocation (key, driver)).distance =
          calculateDistance userLocation.lat userLocation.lng 0 0) ∧
      (driver.coordinates = none →
        (toEntry origin (key, driver)).distance = 0 ∧
          ∀ driversData : List (String × Driver), (key, driver) ∈ driversData →
            toEntry origin (key, driver) ∈ nearbyDriversList origin driversData) := by
  have hgen : (toEntry userLocation (key, driver)).distance =
      calculateDistance userLocation.lat userLocation.lng
        ((driver.coordinates.bind Coordinates.lat).getD 0)
        ((driver.coordinates.bind Coordinates.lng).getD 0) := by
    simp only [toEntry, orZero_eq_getD, coordLat, coordLng]
  have hzero : driver.coordinates = none → (toEntry origin (key, driver)).distance = 0 := by
    intro h
    simp only [toEntry, orZero_eq_getD, coordLat, coordLng, h, origin]
    exact calculateDistance_self 0 0
  refine ⟨hgen, ?_, ?_⟩
  · intro h
    rw [hgen, h]
    rfl
  · intro h
    refine ⟨hzero h, ?_⟩
    intro driversData hmem
    refine (mem_nearbyDriversList origin driversData _).mpr ⟨⟨_, hmem, rfl⟩, ?_⟩
    rw [hzero h]
    norm_num

/-- Claim C9 at the record `unlocatedDriver` stored under `"k1"`. -/
theorem toEntry_absent_coordinates_witness :
    (toEntry origin ("k1", unlocatedDriver)).distance = 0 ∧
      toEntry origin ("k1", unlocatedDriver) ∈
        nearbyDriversList origin [("k1", unlocatedDriver)] :=
  ⟨((toEntry_absent_coordinates origin "k1" unlocatedDriver).2.2 rfl).1,
    ((toEntry_absent_coordinates origin "k1" unlocatedDriver).2.2 rfl).2 _
      (List.mem_singleton.mpr rfl)⟩

/-! ## What an entry of the result carries -/

/-- The `id` of an entry is the record's own `id` field when it has one and the key
otherwise; the `distance` is always the computed one. -/
theorem toEntry_id_and_distance (userLocation : Location) (key : String) (driver : Driver) :
    (toEntry userLocation (key, driver)).id = driver.id.getD key ∧
      (toEntry userLocation (key, driver)).distance =
        calculateDistance userLocation.lat userLocation.lng
          (orZero (coordLat driver)) (orZero (coordLng driver)) := by
  refine ⟨?_, rfl⟩
  cases h : driver.id <;> simp [toEntry, h]

theorem nearbyDriversList_singleton_origin (key : String) (driver : Driver)
    (h : driver.coordinates = none) :
    nearbyDriversList origin [(key, driver)] = [toEntry origin (key, driver)] := by
  have hd : (toEntry origin (key, driver)).distance = 0 := by
    simp only [toEntry, orZero_eq_getD, coordLat, coordLng, h, origin]
    exact calculateDistance_self 0 0
  have hw : withinRadius (toEntry origin (key, driver)) = true := by
    simp [withinRadius, hd]
  simp [nearbyDriversList, List.filter, hw]

/-- Claim C10, evaluated where it fails: the collection stores under the key `"k1"` a record
with fields `id: "own-id"` and `distance: 99` of its own.  The single entry of the result has
the computed distance `0`, not `99`, but its `id` is `"own-id"`, not the key `"k1"`. -/
theorem nearbyDriversList_own_id_replaces_key :
    (nearbyDriversList origin [("k1", driverWithOwnFields)]).map NearbyDriver.distance = [0] ∧
      (nearbyDriversList origin [("k1", driverWithOwnFields)]).map NearbyDriver.id
        = ["own-id"] ∧
      "own-id" ≠ "k1" := by
  rw [nearbyDriversList_singleton_origin "k1" driverWithOwnFields rfl]
  refine ⟨?_, ?_, by decide⟩
  · simp only [List.map, toEntry, orZero_eq_getD, coordLat, coordLng, origin]
    rw [show driverWithOwnFields.coordinates = none from rfl]
    simp only [Option.bind, Option.getD]
    rw [calculateDistance_self]
  · rfl

/-! ## The feed handler and the view -/

/-- A push of a collection publishes the filter/sort result of that push alone and clears
`loading`; a push of `null` clears `loading` and leaves the published list as it was. -/
theorem feedPush_of_location (s : State) (userLocation : Location)
    (h : s.userLocation = some userLocation) :
    (∀ data, (feedPush (some data) s).drivers = nearbyDriversList userLocation data ∧
        (feedPush (some data) s).loading = false) ∧
      (feedPush none s).drivers = s.drivers ∧ (feedPush none s).loading = false := by
  simp [feedPush, h, onValue]

/-- Claim C3, evaluated where it fails: after one push has published a non-empty list, a
`null` push leaves that list published (it is not replaced by `[]`, the filter/sort result
of the push), while `loading` is false. -/
theorem feedPush_null_keeps_previous_list :
    stateAfterOnePush.userLocation = some origin ∧
      stateAfterOnePush.drivers = [toEntry origin ("k1", unlocatedDriver)] ∧
      (feedPush none stateAfterOnePush).drivers = [toEntry origin ("k1", unlocatedDriver)] ∧
      (feedPush none stateAfterOnePush).drivers ≠ [] ∧
      (feedPush none stateAfterOnePush).loading = false := by
  have h1 : stateAfterOnePush.userLocation = some origin := rfl
  have h2 : stateAfterOnePush.drivers = [toEntry origin ("k1", unlocatedDriver)] := by
    show nearbyDriversList origin [("k1", unlocatedDriver)] = _
    exact nearbyDriversList_singleton_origin "k1" unlocatedDriver rfl
  have h3 := (feedPush_of_location stateAfterOnePush origin h1).2
  refine ⟨h1, h2, ?_, ?_, h3.2⟩
  · rw [h3.1, h2]
  · rw [h3.1, h2]
    simp

/-- Without a reference point no handler is subscribed, so pushes leave the state as it is. -/
theorem foldl_feedPush_of_no_location (pushes : List (Option (List (String × Driver))))
    (s : State) (h : s.userLocation = none) :
    pushes.foldl (fun s driversData => feedPush driversData s) s = s := by
  induction pushes with
  | nil => rfl
  | cons d ds ih =>
    have hd : feedPush d s = s := by simp [feedPush, h]
    simp only [List.foldl_cons, hd]
    exact ih

/-- Claim C4, evaluated where it fails: from the initial state, when the location request
fails or the platform has no geolocation, the error is set and the list is `[]`, but
`loading` is still true and the view selected is the loading view, not the error message;
no later push of the feed changes that. -/
theorem render_after_location_failure :
    (getUserLocation (some PositionResult.failure) initialState).error
        = some "فشل في تحديد موقعك" ∧
      (getUserLocation none initialState).error = some "المتصفح لا يدعم تحديد الموقع" ∧
      (getUserLocation (some PositionResult.failure) initialState).drivers = [] ∧
      (getUserLocation none initialState).drivers = [] ∧
      render (getUserLocation (some PositionResult.failure) initialState) = View.loading ∧
      render (getUserLocation none initialState) = View.loading ∧
      (∀ pushes : List (Option (List (String × Driver))),
        render (pushes.foldl (fun s driversData => feedPush driversData s)
          (getUserLocation (some PositionResult.failure) initialState)) = View.loading) ∧
      (∀ pushes : List (Option (List (String × Driver))),
        render (pushes.foldl (fun s driversData => feedPush driversData s)
          (getUserLocation none initialState)) = View.loading) := by
  refine ⟨rfl, rfl, rfl, rfl, ?_, ?_, ?_, ?_⟩
  · simp [render, getUserLocation, initialState]
  · simp [render, getUserLocation, initialState]
  · intro pushes
    rw [foldl_feedPush_of_no_location _ _ rfl]
    simp [render, getUserLocation, initialState]
  · intro pushes
    rw [foldl_feedPush_of_no_location _ _ rfl]
    simp [render, getUserLocation, initialState]

/-! ## Scenario A: reference `(24.7136, 46.6753)`, entity at `(24.7500, 46.7000)` -/

theorem sin_bounds_of_mem (x lo hi : ℝ) (hlo : 0 < lo) (h1 : lo ≤ x) (h2 : x ≤ hi)
    (hhi : hi ≤ 1) : lo - hi ^ 3 / 4 ≤ Real.sin x ∧ Real.sin x ≤ hi := by
  have hx : 0 < x := lt_of_lt_of_le hlo h1
  have h := Real.sin_gt_sub_cube hx (le_trans h2 hhi)
  have h3 : x ^ 3 ≤ hi ^ 3 := pow_le_pow_left₀ hx.le h2 3
  exact ⟨by linarith, le_trans (Real.sin_le hx.le) h2⟩

theorem cos_lower_of_le (x hi : ℝ) (h0 : 0 ≤ x) (h : x ≤ hi) : 1 - hi ^ 2 / 2 ≤ Real.cos x := by
  have hc := Real.one_sub_sq_div_two_le_cos (x := x)
  have h2 : x ^ 2 ≤ hi ^ 2 := pow_le_pow_left₀ h0 h 2
  linarith

theorem cos_deg2rad_le {d : ℝ} (h0 : 0 ≤ d) (h1 : d ≤ 180) :
    Real.cos (deg2rad d) ≤ 1 - 2 * (d / 180) ^ 2 := by
  have hpos := Real.pi_pos
  have hnn : 0 ≤ deg2rad d := by unfold deg2rad; positivity
  have hle : deg2rad d ≤ Real.pi := by
    unfold deg2rad
    have : d * (Real.pi / 180) ≤ 180 * (Real.pi / 180) :=
      mul_le_mul_of_nonneg_right h1 (by positivity)
    linarith
  have h := Real.cos_le_one_sub_mul_cos_sq (x := deg2rad d) (by rwa [abs_of_nonneg hnn])
  have e : 2 / Real.pi ^ 2 * deg2rad d ^ 2 = 2 * (d / 180) ^ 2 := by
    unfold deg2rad
    field_simp
    ring
  rwa [e] at h

theorem scenarioA_sin_dLat :
    0.00031764 ≤ Real.sin (deg2rad (24.75 - 24.7136) / 2) ∧
      Real.sin (deg2rad (24.75 - 24.7136) / 2) ≤ 0.00031765 := by
  have hp1 := Real.pi_gt_d6
  have hp2 := Real.pi_lt_d6
  have e : deg2rad (24.75 - 24.7136) / 2 = 0.0182 * Real.pi / 180 := by
    unfold deg2rad; norm_num; ring
  rw [e]
  have h := sin_bounds_of_mem (0.0182 * Real.pi / 180) 0.000317649
    0.00031765 (by norm_num) (by linarith) (by linarith) (by norm_num)
  refine ⟨le_trans (by norm_num) h.1, h.2⟩

theorem scenarioA_sin_dLon :
    0.00021554 ≤ Real.sin (deg2rad (46.7 - 46.6753) / 2) ∧
      Real.sin (deg2rad (46.7 - 46.6753) / 2) ≤ 0.00021555 := by
  have hp1 := Real.pi_gt_d6
  have hp2 := Real.pi_lt_d6
  have e : deg2rad (46.7 - 46.6753) / 2 = 0.01235 * Real.pi / 180 := by
    unfold deg2rad; norm_num; ring
  rw [e]
  have h := sin_bounds_of_mem (0.01235 * Real.pi / 180) 0.000215548
    0.00021555 (by norm_num) (by linarith) (by linarith) (by norm_num)
  refine ⟨le_trans (by norm_num) h.1, h.2⟩

theorem scenarioA_cos_lat1 :
    0.9069 ≤ Real.cos (deg2rad 24.7136) ∧ Real.cos (deg2rad 24.7136) ≤ 0.9624 := by
  have hp2 := Real.pi_lt_d6
  have hpos := Real.pi_pos
  constructor
  · have h := cos_lower_of_le (deg2rad 24.7136) 0.431335
      (by unfold deg2rad; positivity) (by unfold deg2rad; linarith)
    exact le_trans (by norm_num) h
  · exact le_trans (cos_deg2rad_le (by norm_num) (by norm_num)) (by norm_num)

theorem scenarioA_cos_lat2 :
    0.9066 ≤ Real.cos (deg2rad 24.75) ∧ Real.cos (deg2rad 24.75) ≤ 0.9622 := by
  have hp2 := Real.pi_lt_d6
  have hpos := Real.pi_pos
  constructor
  · have h := cos_lower_of_le (deg2rad 24.75) 0.43197
      (by unfold deg2rad; positivity) (by unfold deg2rad; linarith)
    exact le_trans (by norm_num) h
  · exact le_trans (cos_deg2rad_le (by norm_num) (by norm_num)) (by norm_num)

theorem scenarioA_haversineA_bounds :
    (4.75 / 12742 : ℝ) ^ 2 ≤ haversineA 24.7136 46.6753 24.75 46.7 ∧
      haversineA 24.7136 46.6753 24.75 46.7 ≤ 1.44e-7 := by
  obtain ⟨sxlo, sxhi⟩ := scenarioA_sin_dLat
  obtain ⟨sylo, syhi⟩ := scenarioA_sin_dLon
  obtain ⟨cplo, cphi⟩ := scenarioA_cos_lat1
  obtain ⟨cqlo, cqhi⟩ := scenarioA_cos_lat2
  have ha : haversineA 24.7136 46.6753 24.75 46.7 =
      Real.sin (deg2rad (24.75 - 24.7136) / 2) ^ 2 +
        Real.cos (deg2rad 24.7136) * Real.cos (deg2rad 24.75) *
          Real.sin (deg2rad (46.7 - 46.6753) / 2) ^ 2 := by
    unfold haversineA
    simp only [sq, mul_assoc]
  rw [ha]
  generalize Real.sin (deg2rad (24.75 - 24.7136) / 2) = sx at *
  generalize Real.sin (deg2rad (46.7 - 46.6753) / 2) = sy at *
  generalize Real.cos (deg2rad 24.7136) = cp at *
  generalize Real.cos (deg2rad 24.75) = cq at *
  have sx2lo : 0.00031764 ^ 2 ≤ sx ^ 2 := pow_le_pow_left₀ (by norm_num) sxlo 2
  have sx2hi : sx ^ 2 ≤ 0.00031765 ^ 2 := pow_le_pow_left₀ (by linarith) sxhi 2
  have sy2lo : 0.00021554 ^ 2 ≤ sy ^ 2 := pow_le_pow_left₀ (by norm_num) sylo 2
  have sy2hi : sy ^ 2 ≤ 0.00021555 ^ 2 := pow_le_pow_left₀ (by linarith) syhi 2
  have cclo : 0.9069 * 0.9066 ≤ cp * cq := mul_le_mul cplo cqlo (by norm_num) (by linarith)
  have cchi : cp * cq ≤ 0.9624 * 0.9622 := mul_le_mul cphi cqhi (by linarith) (by norm_num)
  have tlo : 0.9069 * 0.9066 * 0.00021554 ^ 2 ≤ cp * cq * sy ^ 2 :=
    mul_le_mul cclo sy2lo (by norm_num) (by linarith)
  have thi : cp * cq * sy ^ 2 ≤ 0.9624 * 0.9622 * 0.00021555 ^ 2 :=
    mul_le_mul cchi sy2hi (by positivity) (by norm_num)
  constructor
  · norm_num at sx2lo tlo ⊢
    linarith
  · norm_num at sx2hi thi ⊢
    linarith

theorem scenarioA_rawDistance_bounds :
    4.75 ≤ rawDistance 24.7136 46.6753 24.75 46.7 ∧
      rawDistance 24.7136 46.6753 24.75 46.7 < 4.85 := by
  obtain ⟨hlo, hhi⟩ := scenarioA_haversineA_bounds
  have h0 := haversineA_nonneg 24.7136 46.6753 24.75 46.7
  have h1 := haversineA_le_one 24.7136 46.6753 24.75 46.7
  unfold rawDistance R
  rw [haversineC_eq_arcsin]
  generalize haversineA 24.7136 46.6753 24.75 46.7 = a at *
  have hs0 := Real.sqrt_nonneg a
  have hs1 : Real.sqrt a ≤ 1 := by
    rw [Real.sqrt_le_left (by norm_num : (0 : ℝ) ≤ 1)]
    simpa using h1
  have hpi := Real.pi_gt_d6
  -- lower bound: the arc sine of a non-negative number is at least that number
  have hslo : 4.75 / 12742 ≤ Real.sqrt a := Real.le_sqrt_of_sq_le hlo
  have hasin : Real.sqrt a ≤ Real.arcsin (Real.sqrt a) := by
    have h := Real.sin_le (Real.arcsin_nonneg.mpr hs0)
    rwa [Real.sin_arcsin (by linarith) hs1] at h
  -- upper bound: compare with the sine of 4.85 / 12742
  have hshi : Real.sqrt a < Real.sin (4.85 / 12742) := by
    have h := Real.sin_gt_sub_cube (x := 4.85 / 12742) (by norm_num) (by norm_num)
    have hsq : Real.sqrt a ≤ 0.00038 := by
      rw [Real.sqrt_le_left (by norm_num)]
      norm_num at hhi ⊢
      linarith
    norm_num at h
    norm_num
    linarith
  have hasin2 : Real.arcsin (Real.sqrt a) < 4.85 / 12742 := by
    rw [Real.arcsin_lt_iff_lt_sin ⟨by linarith, hs1⟩
      ⟨by norm_num; linarith, by norm_num; linarith⟩]
    exact hshi
  constructor
  · have : (4.75 : ℝ) = 6371 * (2 * (4.75 / 12742)) := by norm_num
    linarith
  · have : (4.85 : ℝ) = 6371 * (2 * (4.85 / 12742)) := by norm_num
    linarith

theorem scenarioA_calculateDistance : calculateDistance 24.7136 46.6753 24.75 46.7 = 4.8 := by
  obtain ⟨hlo, hhi⟩ := scenarioA_rawDistance_bounds
  unfold calculateDistance
  have h := toFixed1_eq_of_mem (x := rawDistance 24.7136 46.6753 24.75 46.7) 48
    (by linarith) (by norm_num; linarith) (by norm_num; linarith)
  rw [h]
  norm_num

theorem scenarioA_entry_distance (key : String) :
    (toEntry scenarioAReference (key, scenarioADriver)).distance = 4.8 := by
  simp only [toEntry, orZero_eq_getD, coordLat, coordLng, scenarioAReference, scenarioADriver,
    Option.bind, Option.getD]
  exact scenarioA_calculateDistance

/-- Claim C5 as stated fails: for reference `(24.7136, 46.6753)` and the entity at
`(24.7500, 46.7000)` the value returned by `calculateDistance` is not `4.5`, and the
unrounded `6371 * c` is not in `[4.45, 4.55)`. -/
theorem scenarioA_distance_ne_4_5 :
    calculateDistance 24.7136 46.6753 24.75 46.7 ≠ 4.5 ∧
      ¬ (4.45 ≤ rawDistance 24.7136 46.6753 24.75 46.7 ∧
        rawDistance 24.7136 46.6753 24.75 46.7 < 4.55) := by
  constructor
  · rw [scenarioA_calculateDistance]
    norm_num
  · intro h
    have := scenarioA_rawDistance_bounds.1
    linarith [h.2]

/-- Claim C5 amended: for reference `(24.7136, 46.6753)` and the entity at
`(24.7500, 46.7000)` `calculateDistance` returns `4.8`, the unrounded `6371 * c` lying in
`[4.75, 4.85)`; the entity passes the `distance <= 10` filter and a collection holding only
it yields a one-element result with that distance. -/
theorem scenarioA_distance_eq_4_8 :
    calculateDistance 24.7136 46.6753 24.75 46.7 = 4.8 ∧
      (4.75 ≤ rawDistance 24.7136 46.6753 24.75 46.7 ∧
        rawDistance 24.7136 46.6753 24.75 46.7 < 4.85) ∧
      withinRadius (toEntry scenarioAReference ("k1", scenarioADriver)) = true ∧
      (nearbyDriversList scenarioAReference [("k1", scenarioADriver)]).map
        NearbyDriver.distance = [4.8] := by
  have hd := scenarioA_entry_distance "k1"
  have hw : withinRadius (toEntry scenarioAReference ("k1", scenarioADriver)) = true := by
    simp only [withinRadius, hd, decide_eq_true_eq]
    norm_num
  refine ⟨scenarioA_calculateDistance, scenarioA_rawDistance_bounds, hw, ?_⟩
  simp [nearbyDriversList, List.filter, hw, hd]

end NearbyDrivers

end
